import Mathlib

/-!
Shallow embedding of the MangaMaker AI batch image-generation tool
(src/app.py): the worker that calls the generation API and classifies
its response (generate_single_image), the dispatch/aggregation loop of
main, the session-state result store, the input gate, and the request
part assembly. Bytes are modelled as List Nat, API payloads as explicit
structures mirroring the SDK response shape.
-/

namespace MangaTool

/-- An uploaded file as the UI hands it to main: its raw bytes
(cf.getvalue()) and its declared MIME type (cf.type). -/
structure UploadedFile where
  data : List Nat
  mime : String
deriving Repr, DecidableEq

/-- A part attached to the outgoing request: Part.from_text or
Part.from_bytes with an explicit MIME type. -/
inductive ReqPart where
  | text (s : String)
  | bytes (data : List Nat) (mime : String)
deriving Repr, DecidableEq

/-- The inline_data blob of a response part; its data field holds the
image bytes. -/
structure Blob where
  data : List Nat
deriving Repr, DecidableEq

/-- One part of a response candidate: optional inline_data blob and
optional text. Python truthiness: a present blob is truthy; a text
string is truthy only when non-empty. -/
structure RespPart where
  inline_data : Option Blob
  text : Option String
deriving Repr, DecidableEq

/-- The content of a response candidate, holding its parts list. -/
structure Content where
  parts : List RespPart
deriving Repr, DecidableEq

/-- One candidate of the API response. -/
structure Candidate where
  content : Content
deriving Repr, DecidableEq

/-- An API response: its candidates list (an absent list is modelled as
the empty list, which is equally falsy in Python). -/
structure ApiResponse where
  candidates : List Candidate
deriving Repr, DecidableEq

/-- The outcome of one call to client.models.generate_content: either a
response object or a raised exception carrying its message. -/
inductive ApiResult where
  | ok (r : ApiResponse)
  | exn (msg : String)
deriving Repr, DecidableEq

/-- The worker's return value as main sees it: bytes (success) or an
error string (failure); generate_single_image returns exactly one of
these. -/
inductive WorkerResult where
  | imageBytes (b : List Nat)
  | errorMessage (m : String)
deriving Repr, DecidableEq

/-- Error message for a raised exception (app.py line 102). -/
def sysErrorMsg (e : String) : String :=
  "🚫 システムエラー: " ++ e

/-- Error message when the model answered with text (app.py line 96). -/
def declinedMsg (t : String) : String :=
  "⚠️ 生成失敗 (AIからの応答): " ++ t

/-- Error message when no usable part is found (app.py line 98). -/
def emptyRespMsg : String :=
  "⚠️ エラー: レスポンスにデータが含まれていません。"

/-- The part-scanning loop of generate_single_image (app.py lines
89-96): for each part in order, a present inline_data returns its bytes,
otherwise a non-empty text returns the declined message; otherwise the
next part is examined. Returns none when no part decides. -/
def scanParts : List RespPart → Option WorkerResult
  | [] => none
  | p :: rest =>
    match p.inline_data with
    | some blob => some (WorkerResult.imageBytes blob.data)
    | none =>
      match p.text with
      | some t =>
        if t.isEmpty then scanParts rest
        else some (WorkerResult.errorMessage (declinedMsg t))
      | none => scanParts rest

/-- The worker function generate_single_image (app.py lines 64-102): a
raised exception becomes the system-error string; otherwise the first
candidate's parts are scanned; an empty candidates list or an
undecided scan yields the empty-response string. -/
def generate_single_image (call : ApiResult) : WorkerResult :=
  match call with
  | ApiResult.exn e => WorkerResult.errorMessage (sysErrorMsg e)
  | ApiResult.ok r =>
    match r.candidates with
    | [] => WorkerResult.errorMessage emptyRespMsg
    | c :: _ =>
      match scanParts c.content.parts with
      | some w => w
      | none => WorkerResult.errorMessage emptyRespMsg

/-- The worker cap computed in main (app.py line 206):
workers = min(num_images, 4). -/
def workers (num_images : Nat) : Nat := min num_images 4

/-- The character parts built in main (app.py lines 183-185): each
uploaded character file becomes Part.from_bytes with its own bytes and
its own declared MIME type. -/
def character_parts (char_files : List UploadedFile) : List ReqPart :=
  char_files.map fun cf => ReqPart.bytes cf.data cf.mime

/-- The parts list of the outgoing request (app.py lines 75-79): the
prompt text, the character parts, then the pose bytes with MIME type
hard-coded to image/png (the pose file's own type is never read). -/
def contents_parts (prompt_text : String) (char_files : List UploadedFile)
    (pose_file : UploadedFile) : List ReqPart :=
  ReqPart.text prompt_text ::
    (character_parts char_files ++ [ReqPart.bytes pose_file.data "image/png"])

/-- The input gate of main (app.py lines 172-174): the generate button
dispatches only when the character list is non-empty and a pose file is
present; otherwise an error is shown and nothing is dispatched. -/
def dispatchAllowed (char_files : List UploadedFile)
    (pose_file : Option UploadedFile) : Bool :=
  !(char_files.isEmpty || pose_file.isNone)

/-- The state threaded through main's as_completed loop: the results
list of successful payloads, the error strings shown so far via
st.error, the progress-bar numerators emitted so far (each update shows
value/num_images), and the enumeration counter i. -/
structure LoopState where
  results : List (List Nat)
  errorsShown : List String
  progress : List Nat
  i : Nat
deriving Repr, DecidableEq

/-- One iteration of main's aggregation loop (app.py lines 213-224):
bytes results are appended to results, string results are shown via
st.error, and the progress bar is updated to (i+1)/num_images in either
case. -/
def loopStep (s : LoopState) (result : WorkerResult) : LoopState :=
  match result with
  | WorkerResult.imageBytes b =>
    { results := s.results ++ [b]
      errorsShown := s.errorsShown
      progress := s.progress ++ [s.i + 1]
      i := s.i + 1 }
  | WorkerResult.errorMessage m =>
    { results := s.results
      errorsShown := s.errorsShown ++ [m]
      progress := s.progress ++ [s.i + 1]
      i := s.i + 1 }

/-- Main's dispatch and aggregation (app.py lines 203-224): every call's
worker result, taken in completion order, is folded through the loop
starting from empty results. The calls list holds the API outcome of
each of the num_images identical jobs, in completion order. -/
def runLoop (calls : List ApiResult) : LoopState :=
  (calls.map generate_single_image).foldl loopStep ⟨[], [], [], 0⟩

/-- The session-state update after the loop (app.py lines 226-231): a
non-empty results list replaces st.session_state.generated_images;
an empty one leaves the previous value in place and shows the aggregate
failure notice instead. -/
def finishRun (prev_generated_images : List (List Nat))
    (calls : List ApiResult) : List (List Nat) :=
  let results := (runLoop calls).results
  if results.isEmpty then prev_generated_images else results

/-- Whether the aggregate failure notice is shown (app.py line 231): the
else branch taken exactly when results is empty. -/
def aggregateFailureShown (calls : List ApiResult) : Bool :=
  (runLoop calls).results.isEmpty

/-- The successful payloads among a list of worker results, in order. -/
def successPayloads (ws : List WorkerResult) : List (List Nat) :=
  ws.filterMap fun w =>
    match w with
    | WorkerResult.imageBytes b => some b
    | WorkerResult.errorMessage _ => none

/-- The failure messages among a list of worker results, in order. -/
def failureMessages (ws : List WorkerResult) : List String :=
  ws.filterMap fun w =>
    match w with
    | WorkerResult.imageBytes _ => none
    | WorkerResult.errorMessage m => some m

/-- The number of successful outcomes of a run's calls. -/
def successCount (calls : List ApiResult) : Nat :=
  ((calls.map generate_single_image).filter fun w =>
    match w with
    | WorkerResult.imageBytes _ => true
    | WorkerResult.errorMessage _ => false).length

/-- State of the fixed-size thread pool dispatching one run: how many
of the num_images jobs are not yet started, are currently executing in
a worker thread, and have completed. -/
structure PoolState where
  pending : Nat
  running : Nat
  done : Nat
deriving Repr, DecidableEq

/-- Transitions of ThreadPoolExecutor(max_workers = w) on one run's
jobs: a queued job may start only while fewer than w jobs are running
(the pool has at most w worker threads, each executing at most one job
at a time), and a running job may finish. -/
inductive PoolStep (w : Nat) : PoolState → PoolState → Prop
  | start (s : PoolState) : s.running < w → 0 < s.pending →
      PoolStep w s ⟨s.pending - 1, s.running + 1, s.done⟩
  | finish (s : PoolState) : 0 < s.running →
      PoolStep w s ⟨s.pending, s.running - 1, s.done + 1⟩

/-- States reachable by the pool of capacity w from the initial state
of a run with n submitted jobs (all pending, none running or done). -/
inductive PoolReachable (w : Nat) (n : Nat) : PoolState → Prop
  | init : PoolReachable w n ⟨n, 0, 0⟩
  | step (s t : PoolState) : PoolReachable w n s → PoolStep w s t →
      PoolReachable w n t

/-- Unfolding equation: a success outcome contributes its payload. -/
theorem successPayloads_cons_image (b : List Nat) (ws : List WorkerResult) :
    successPayloads (WorkerResult.imageBytes b :: ws) = b :: successPayloads ws := rfl

/-- Unfolding equation: a failure outcome contributes no payload. -/
theorem successPayloads_cons_error (m : String) (ws : List WorkerResult) :
    successPayloads (WorkerResult.errorMessage m :: ws) = successPayloads ws := rfl

/-- Unfolding equation: a success outcome contributes no message. -/
theorem failureMessages_cons_image (b : List Nat) (ws : List WorkerResult) :
    failureMessages (WorkerResult.imageBytes b :: ws) = failureMessages ws := rfl

/-- Unfolding equation: a failure outcome contributes its message. -/
theorem failureMessages_cons_error (m : String) (ws : List WorkerResult) :
    failureMessages (WorkerResult.errorMessage m :: ws) = m :: failureMessages ws := rfl

/-- Closed form of main's aggregation fold from any starting state: it
appends the success payloads, the failure messages, and the next
run of progress numerators, and advances the counter by the number of
outcomes processed. -/
theorem foldl_loopStep (ws : List WorkerResult) (s : LoopState) :
    ws.foldl loopStep s =
      ⟨s.results ++ successPayloads ws,
       s.errorsShown ++ failureMessages ws,
       s.progress ++ List.range' (s.i + 1) ws.length,
       s.i + ws.length⟩ := by
  induction ws generalizing s with
  | nil => simp [successPayloads, failureMessages]
  | cons w ws ih =>
    cases w with
    | imageBytes b =>
      rw [List.foldl_cons, loopStep, ih, successPayloads_cons_image]
      simp [List.range'_succ, failureMessages_cons_image]
      omega
    | errorMessage m =>
      rw [List.foldl_cons, loopStep, ih, failureMessages_cons_error]
      simp [List.range'_succ, successPayloads_cons_error]
      omega

/-- The whole run loop in closed form. -/
theorem runLoop_eq (calls : List ApiResult) :
    runLoop calls =
      ⟨successPayloads (calls.map generate_single_image),
       failureMessages (calls.map generate_single_image),
       List.range' 1 calls.length,
       calls.length⟩ := by
  unfold runLoop
  rw [foldl_loopStep]
  simp

/-- The results list collected by the loop is exactly the successful
payloads of the outcomes, in completion order. -/
theorem runLoop_results (calls : List ApiResult) :
    (runLoop calls).results = successPayloads (calls.map generate_single_image) := by
  rw [runLoop_eq]

/-- The error strings shown by the loop are exactly the failure
messages of the outcomes, in completion order. -/
theorem runLoop_errorsShown (calls : List ApiResult) :
    (runLoop calls).errorsShown = failureMessages (calls.map generate_single_image) := by
  rw [runLoop_eq]

/-- The progress numerators emitted by the loop are 1, 2, ..., n. -/
theorem runLoop_progress (calls : List ApiResult) :
    (runLoop calls).progress = List.range' 1 calls.length := by
  rw [runLoop_eq]

/-- Every outcome is either a success or a failure, and the payloads
and messages partition the outcomes. -/
theorem length_successPayloads_add_failureMessages (ws : List WorkerResult) :
    (successPayloads ws).length + (failureMessages ws).length = ws.length := by
  induction ws with
  | nil => rfl
  | cons w ws ih =>
    cases w with
    | imageBytes b =>
      rw [successPayloads_cons_image, failureMessages_cons_image]
      simp only [List.length_cons]
      omega
    | errorMessage m =>
      rw [successPayloads_cons_error, failureMessages_cons_error]
      simp only [List.length_cons]
      omega

/-- The number of payloads collected equals the number of outcomes the
success filter keeps. -/
theorem length_successPayloads_eq_filter (ws : List WorkerResult) :
    (successPayloads ws).length =
      (ws.filter fun w =>
        match w with
        | WorkerResult.imageBytes _ => true
        | WorkerResult.errorMessage _ => false).length := by
  induction ws with
  | nil => rfl
  | cons w ws ih =>
    cases w with
    | imageBytes b =>
      rw [successPayloads_cons_image]
      simpa [List.filter_cons] using ih
    | errorMessage m =>
      rw [successPayloads_cons_error]
      simpa [List.filter_cons] using ih

/-- The success count of a run equals the length of its collected
results list. -/
theorem successCount_eq_length_results (calls : List ApiResult) :
    successCount calls = (runLoop calls).results.length := by
  rw [runLoop_results, successCount, length_successPayloads_eq_filter]

/-- The collected payloads are never more numerous than the outcomes. -/
theorem length_successPayloads_le (ws : List WorkerResult) :
    (successPayloads ws).length ≤ ws.length := by
  unfold successPayloads
  exact List.length_filterMap_le _ _

/-- The largest progress numerator of a non-empty run is n. -/
theorem getLast?_range'_one (n : Nat) (h : n ≠ 0) :
    (List.range' 1 n).getLast? = some n := by
  obtain ⟨m, rfl⟩ := Nat.exists_eq_succ_of_ne_zero h
  rw [List.range'_concat, List.getLast?_concat]
  simp only [Option.some.injEq]
  omega

/-- Invariant of the pool: a reachable state never has more jobs
running than the pool's capacity. -/
theorem poolReachable_running_le (w n : Nat) (s : PoolState)
    (h : PoolReachable w n s) : s.running ≤ w := by
  induction h with
  | init => exact Nat.zero_le w
  | step u t hr hstep ih =>
    cases hstep with
    | start hlt hp => exact hlt
    | finish hrun => exact Nat.le_trans (Nat.sub_le _ _) ih

end MangaTool

namespace MangaTool

/-- C1: for every requested count n in [1,10], dispatching a batch of n
generation calls produces exactly n worker outcomes, each classified as
a success (image bytes) or a failure (error string) — one outcome per
submitted request — and the collected results list has size at most n. -/
theorem C1_batch_outcomes (n : Nat) (h1 : 1 ≤ n) (h10 : n ≤ 10)
    (calls : List ApiResult) (hlen : calls.length = n) :
    (calls.map generate_single_image).length = n ∧
    (∀ w ∈ calls.map generate_single_image,
      (∃ b, w = WorkerResult.imageBytes b) ∨
      (∃ m, w = WorkerResult.errorMessage m)) ∧
    (runLoop calls).results.length ≤ n := by
  refine ⟨by simpa using hlen, ?_, ?_⟩
  · intro w _
    cases w with
    | imageBytes b => exact Or.inl ⟨b, rfl⟩
    | errorMessage m => exact Or.inr ⟨m, rfl⟩
  · rw [runLoop_results]
    calc (successPayloads (calls.map generate_single_image)).length
        ≤ (calls.map generate_single_image).length :=
          length_successPayloads_le _
      _ = n := by simpa using hlen

/-- Witness for C1 at n = 2 with one failing and one empty-response
call. -/
theorem C1_batch_outcomes_witness :
    ([ApiResult.exn "x", ApiResult.ok ⟨[]⟩].map generate_single_image).length = 2 ∧
    (∀ w ∈ [ApiResult.exn "x", ApiResult.ok ⟨[]⟩].map generate_single_image,
      (∃ b, w = WorkerResult.imageBytes b) ∨
      (∃ m, w = WorkerResult.errorMessage m)) ∧
    (runLoop [ApiResult.exn "x", ApiResult.ok ⟨[]⟩]).results.length ≤ 2 :=
  C1_batch_outcomes 2 (by decide) (by decide)
    [ApiResult.exn "x", ApiResult.ok ⟨[]⟩] (by decide)

/-- C2: the worker classifies every API result into exactly one
outcome: an exception yields the stringified system error, an inline
binary payload yields the image bytes, a text-only payload yields the
declined-message failure, an absent payload yields the empty-response
failure, and on every input the worker returns a tagged success or
failure rather than propagating an exception. -/
theorem C2_worker_classification (e t : String) (ht : t.isEmpty = false)
    (blob : Blob) (rest : List Candidate) :
    generate_single_image (ApiResult.exn e)
      = WorkerResult.errorMessage (sysErrorMsg e) ∧
    generate_single_image
        (ApiResult.ok ⟨Candidate.mk (Content.mk [RespPart.mk (some blob) none]) :: rest⟩)
      = WorkerResult.imageBytes blob.data ∧
    generate_single_image
        (ApiResult.ok ⟨Candidate.mk (Content.mk [RespPart.mk none (some t)]) :: rest⟩)
      = WorkerResult.errorMessage (declinedMsg t) ∧
    generate_single_image (ApiResult.ok ⟨[]⟩)
      = WorkerResult.errorMessage emptyRespMsg ∧
    (∀ call : ApiResult,
      (∃ b, generate_single_image call = WorkerResult.imageBytes b) ∨
      (∃ m, generate_single_image call = WorkerResult.errorMessage m)) := by
  refine ⟨rfl, rfl, ?_, rfl, ?_⟩
  · simp [generate_single_image, scanParts, ht]
  · intro call
    cases h : generate_single_image call with
    | imageBytes b => exact Or.inl ⟨b, rfl⟩
    | errorMessage m => exact Or.inr ⟨m, rfl⟩

/-- Witness for C2: a text-only response is classified as a declined
failure. -/
theorem C2_worker_classification_witness :
    generate_single_image
        (ApiResult.ok ⟨[Candidate.mk (Content.mk [RespPart.mk none (some "cannot")])]⟩)
      = WorkerResult.errorMessage (declinedMsg "cannot") :=
  (C2_worker_classification "k" "cannot" (by decide) ⟨[3]⟩ []).2.2.1

/-- C3 counterexample: a run whose single call raises collects no
results, and the stored set after finishing it still holds the previous
run's entry — it is not the new run's (empty) outcome list, so entries
of a previous run do remain. -/
theorem C3_counterexample :
    (runLoop [ApiResult.exn "boom"]).results = [] ∧
    finishRun [[7]] [ApiResult.exn "boom"] = [[7]] ∧
    finishRun [[7]] [ApiResult.exn "boom"] ≠ [] :=
  ⟨rfl, rfl, by decide⟩

/-- C3 amended: a run that collects at least one success replaces the
stored set with exactly its own successful payloads; a run with zero
successes leaves the previously stored set in place. -/
theorem C3_amended_store_update (prev : List (List Nat)) (calls : List ApiResult) :
    (successCount calls ≠ 0 →
      finishRun prev calls = successPayloads (calls.map generate_single_image)) ∧
    (successCount calls = 0 → finishRun prev calls = prev) := by
  have hres := runLoop_results calls
  have hcount := successCount_eq_length_results calls
  constructor
  · intro h
    have hne : (runLoop calls).results ≠ [] := by
      intro hnil
      rw [hcount, hnil] at h
      exact h rfl
    unfold finishRun
    rw [if_neg (by simpa [List.isEmpty_iff] using hne)]
    exact hres
  · intro h
    have hnil : (runLoop calls).results = [] := by
      rw [hcount] at h
      exact List.length_eq_zero.mp h
    unfold finishRun
    rw [if_pos (by simpa [List.isEmpty_iff] using hnil)]

/-- Witness for the amended C3: an all-failures run keeps the stored
previous results. -/
theorem C3_amended_store_update_witness :
    finishRun [[5]] [ApiResult.exn "x"] = [[5]] :=
  (C3_amended_store_update [[5]] [ApiResult.exn "x"]).2 (by decide)

/-- C4: in every state the thread pool of a run with n jobs can reach,
the number of generation calls running at once is at most the cap
workers n, which is min n 4 (the fixed constant of this revision is
cap = 4). -/
theorem C4_concurrency_bound (n : Nat) (s : PoolState)
    (h : PoolReachable (workers n) n s) :
    s.running ≤ workers n ∧ workers n = min n 4 :=
  ⟨poolReachable_running_le (workers n) n s h, rfl⟩

/-- Witness for C4: after starting one of three jobs, one call is in
flight, below the cap min 3 4 = 3. -/
theorem C4_concurrency_bound_witness :
    (PoolState.mk 2 1 0).running ≤ workers 3 ∧ workers 3 = min 3 4 :=
  C4_concurrency_bound 3 ⟨2, 1, 0⟩
    (PoolReachable.step ⟨3, 0, 0⟩ ⟨2, 1, 0⟩ PoolReachable.init
      (PoolStep.start ⟨3, 0, 0⟩ (by decide) (by decide)))

/-- C5: the progress counter is updated once after every job completion
whatever its outcome (n updates for n calls, showing 1/n, 2/n, ..., n/n
in order), is monotonically non-decreasing, and shows n/n exactly at
the last update, when all n jobs have produced an outcome. -/
theorem C5_progress_monotone (calls : List ApiResult) :
    (runLoop calls).progress = List.range' 1 calls.length ∧
    (runLoop calls).progress.length = calls.length ∧
    List.Pairwise (· ≤ ·) (runLoop calls).progress ∧
    (calls ≠ [] → (runLoop calls).progress.getLast? = some calls.length) ∧
    (∀ k ∈ (runLoop calls).progress.dropLast, k < calls.length) := by
  have hp := runLoop_progress calls
  refine ⟨hp, ?_, ?_, ?_, ?_⟩
  · rw [hp, List.length_range']
  · rw [hp]
    exact (List.pairwise_lt_range' 1 calls.length).imp Nat.le_of_lt
  · intro hne
    rw [hp]
    exact getLast?_range'_one calls.length
      (by simpa [List.length_eq_zero] using hne)
  · rw [hp]
    cases hn : calls.length with
    | zero => simp
    | succ m =>
      rw [List.range'_concat, List.dropLast_concat]
      intro k hk
      have := List.mem_range'_1.mp hk
      omega

/-- Witness for C5: a two-call run's progress ends at 2/2. -/
theorem C5_progress_monotone_witness :
    (runLoop [ApiResult.exn "x", ApiResult.exn "y"]).progress.getLast? = some 2 :=
  (C5_progress_monotone [ApiResult.exn "x", ApiResult.exn "y"]).2.2.2.1 (by decide)

/-- C6: the aggregate failure notice is shown if and only if the run
collected zero successes, and in every case the run completes normally:
each of the n calls produced an outcome and the loop processed all n
completions. -/
theorem C6_aggregate_failure_iff (calls : List ApiResult) :
    (aggregateFailureShown calls = true ↔ successCount calls = 0) ∧
    (calls.map generate_single_image).length = calls.length ∧
    (runLoop calls).progress.length = calls.length := by
  refine ⟨?_, by simp, ?_⟩
  · rw [aggregateFailureShown, successCount_eq_length_results,
      List.isEmpty_iff, List.length_eq_zero]
  · rw [runLoop_progress, List.length_range']

/-- Witness for C6: a run whose only call raises shows the aggregate
failure notice, hence has zero successes. -/
theorem C6_aggregate_failure_iff_witness :
    successCount [ApiResult.exn "x"] = 0 :=
  (C6_aggregate_failure_iff [ApiResult.exn "x"]).1.mp (by decide)

/-- C7 counterexample: with an empty character list and a pose image
present, the generate button does not dispatch — main shows an error
instead, contradicting the claim that such a run starts normally. -/
theorem C7_counterexample :
    dispatchAllowed [] (some (UploadedFile.mk [1] "image/png")) = false := rfl

/-- C7 amended: input collection requires at least one character image
and the pose image: dispatch is refused when the character list is
empty or the pose image is absent, and proceeds when both are
supplied. -/
theorem C7_amended_input_gate (cs : List UploadedFile) (p : UploadedFile) :
    dispatchAllowed [] (some p) = false ∧
    dispatchAllowed cs none = false ∧
    (cs ≠ [] → dispatchAllowed cs (some p) = true) := by
  refine ⟨rfl, by simp [dispatchAllowed], ?_⟩
  intro hne
  simp [dispatchAllowed, hne]

/-- Witness for the amended C7: one character image plus a pose image
dispatches. -/
theorem C7_amended_input_gate_witness :
    dispatchAllowed [UploadedFile.mk [0] "image/jpeg"]
      (some (UploadedFile.mk [1] "image/webp")) = true :=
  (C7_amended_input_gate [UploadedFile.mk [0] "image/jpeg"]
    (UploadedFile.mk [1] "image/webp")).2.2 (by decide)

/-- C8 counterexample: in a one-call run whose call raises, the error
string is shown but not appended to the results list, which stays
empty — so the collected ResultSet does not contain an entry for each
of the N = 1 requests. -/
theorem C8_counterexample :
    ([ApiResult.exn "boom"] : List ApiResult).length = 1 ∧
    (runLoop [ApiResult.exn "boom"]).results = [] ∧
    (runLoop [ApiResult.exn "boom"]).errorsShown = [sysErrorMsg "boom"] ∧
    (runLoop [ApiResult.exn "boom"]).results.length
      ≠ ([ApiResult.exn "boom"] : List ApiResult).length :=
  ⟨rfl, rfl, rfl, by decide⟩

/-- C8 amended: as requests complete, successful payloads are appended
to the results list in completion order, while per-request error
strings are displayed immediately and not stored; together the stored
payloads and the displayed errors cover all N requests. -/
theorem C8_amended_aggregation (calls : List ApiResult) :
    (runLoop calls).results = successPayloads (calls.map generate_single_image) ∧
    (runLoop calls).errorsShown = failureMessages (calls.map generate_single_image) ∧
    (runLoop calls).results.length + (runLoop calls).errorsShown.length
      = calls.length := by
  refine ⟨runLoop_results calls, runLoop_errorsShown calls, ?_⟩
  rw [runLoop_results, runLoop_errorsShown]
  rw [length_successPayloads_add_failureMessages]
  simp

/-- C9: the worker looks only at the first candidate of a response —
the result over candidates c :: rest equals the result over c alone —
and the first part carrying a payload decides: a text part placed
before an inline-image part classifies the request as a declined
failure even though image bytes are present later in the parts list. -/
theorem C9_first_candidate_first_part (c : Candidate) (rest : List Candidate)
    (t : String) (ht : t.isEmpty = false) (blob : Blob) (tail : List RespPart) :
    generate_single_image (ApiResult.ok ⟨c :: rest⟩)
      = generate_single_image (ApiResult.ok ⟨[c]⟩) ∧
    generate_single_image (ApiResult.ok
        ⟨Candidate.mk (Content.mk
          (RespPart.mk none (some t) :: RespPart.mk (some blob) none :: tail)) :: rest⟩)
      = WorkerResult.errorMessage (declinedMsg t) := by
  refine ⟨rfl, ?_⟩
  simp [generate_single_image, scanParts, ht]

/-- Witness for C9: a response whose first candidate has a text part
and then an image part, with a second candidate present, is classified
as a declined failure. -/
theorem C9_first_candidate_first_part_witness :
    generate_single_image (ApiResult.ok
        ⟨Candidate.mk (Content.mk
          [RespPart.mk none (some "no"), RespPart.mk (some (Blob.mk [1])) none])
          :: [Candidate.mk (Content.mk [RespPart.mk (some (Blob.mk [2])) none])]⟩)
      = WorkerResult.errorMessage (declinedMsg "no") :=
  (C9_first_candidate_first_part
    (Candidate.mk (Content.mk [RespPart.mk (some (Blob.mk [2])) none]))
    [Candidate.mk (Content.mk [RespPart.mk (some (Blob.mk [2])) none])]
    "no" (by decide) (Blob.mk [1]) []).2

/-- C10: the pose image is always attached as the last request part
with MIME type image/png no matter what the pose file declares, while
every character image is attached with its own declared MIME type. -/
theorem C10_mime_types (prompt : String) (cs : List UploadedFile)
    (pose : UploadedFile) :
    (contents_parts prompt cs pose).getLast?
      = some (ReqPart.bytes pose.data "image/png") ∧
    (∀ m : String,
      contents_parts prompt cs (UploadedFile.mk pose.data m)
        = contents_parts prompt cs pose) ∧
    (∀ cf ∈ cs, ReqPart.bytes cf.data cf.mime ∈ contents_parts prompt cs pose) := by
  refine ⟨?_, fun m => rfl, ?_⟩
  · show (ReqPart.text prompt ::
      (character_parts cs ++ [ReqPart.bytes pose.data "image/png"])).getLast? = _
    rw [← List.cons_append, List.getLast?_concat]
  · intro cf hcf
    unfold contents_parts character_parts
    exact List.mem_cons_of_mem _
      (List.mem_append_left _ (List.mem_map_of_mem _ hcf))

/-- Witness for C10: a webp pose file still goes out as image/png, and
a jpeg character file keeps image/jpeg. -/
theorem C10_mime_types_witness :
    (contents_parts "p" [UploadedFile.mk [1] "image/jpeg"]
        (UploadedFile.mk [2] "image/webp")).getLast?
      = some (ReqPart.bytes [2] "image/png") ∧
    ReqPart.bytes [1] "image/jpeg"
      ∈ contents_parts "p" [UploadedFile.mk [1] "image/jpeg"]
          (UploadedFile.mk [2] "image/webp") :=
  ⟨(C10_mime_types "p" [UploadedFile.mk [1] "image/jpeg"]
      (UploadedFile.mk [2] "image/webp")).1,
   (C10_mime_types "p" [UploadedFile.mk [1] "image/jpeg"]
      (UploadedFile.mk [2] "image/webp")).2.2
     (UploadedFile.mk [1] "image/jpeg") (by decide)⟩

end MangaTool
